import Mathlib

/-!
# Event routers of `examples/win32/server_rtos/main.c`

A shallow embedding of the two event callbacks of the example server,
`esp_server_callback_func` (connection events) and `esp_callback_func`
(library lifecycle events).

The callbacks only talk to the outside world through functions that are
declared in `esp/esp.h` and in the C library, none of which is part of the
example.  Every such function is a field of `Engine` (a parameter of the
embedding), and every call to one of them is recorded, in program order, in
a trace of `Call`s.  The trace is the state the callbacks thread through.
-/

namespace Lwesp

/-! ## Types declared in the missing header `esp/esp.h` -/

/-- Modelled from the spec: the result enumeration `espr_t` of `esp/esp.h`,
which is missing.  The source only names `espOK`; every other member is
`espERR code`. -/
inductive espr_t where
  | espOK
  | espERR (code : Nat)
  deriving DecidableEq, Repr

/-- Modelled from the spec: the event discriminant `esp_evt_type_t` of
`esp/esp.h`, which is missing.  The six members the source names are
constructors; any further member of the enumeration is `ESP_EVT_OTHER code`. -/
inductive esp_evt_type_t where
  | ESP_EVT_INIT_FINISH
  | ESP_EVT_RESET
  | ESP_EVT_AT_VERSION_NOT_SUPPORTED
  | ESP_EVT_CONN_ACTIVE
  | ESP_EVT_CONN_DATA_RECV
  | ESP_EVT_CONN_CLOSED
  | ESP_EVT_OTHER (code : Nat)
  deriving DecidableEq, Repr

/-- Modelled from the spec: the firmware version `esp_sw_version_t` of
`esp/esp.h`, which is missing: "a semantic triple: major, minor, patch". -/
structure esp_sw_version_t where
  major : Int
  minor : Int
  patch : Int
  deriving DecidableEq, Repr

/-- The functions of the external library the callbacks call.  Their
implementation is not part of the example, so each is a parameter.  `Evt`,
`Conn` and `Pbuf` are what `esp_evt_t*`, `esp_conn_p` and a non-null
`esp_pbuf_p` point to; a null `esp_pbuf_p` is `none`. -/
structure Engine (Evt Conn Pbuf : Type) where
  esp_evt_get_type : Evt → esp_evt_type_t
  esp_conn_get_from_evt : Evt → Conn
  esp_evt_conn_data_recv_get_buff : Evt → Option Pbuf
  esp_conn_getnum : Conn → Int
  esp_pbuf_length : Pbuf → Nat → Nat
  esp_conn_close : Conn → Nat → espr_t
  esp_get_min_at_fw_version : esp_sw_version_t
  esp_get_current_at_fw_version : esp_sw_version_t

/-! ## C-level helpers -/

/-- Width of the C type `int` on the Win32 target of the example. -/
def INT_BITS : Nat := 32

/-- The conversion `(int)x`: the value of `x` reduced into the range of a
two's-complement `int` of `INT_BITS` bits.  It is the identity on that range. -/
def castInt (x : Int) : Int :=
  (x + 2 ^ (INT_BITS - 1)) % 2 ^ INT_BITS - 2 ^ (INT_BITS - 1)

/-- Expansion of the `%d` conversions of a `printf` format, one argument per
conversion, left to right; all other characters are copied. -/
def formatChars : List Char → List Int → List Char
  | [], _ => []
  | [c], _ => [c]
  | c :: d :: rest, args =>
    if c = '%' ∧ d = 'd' then
      match args with
      | a :: as => (toString a).toList ++ formatChars rest as
      | [] => formatChars rest []
    else c :: formatChars (d :: rest) args

/-- The text `printf(fmt, args...)` writes. -/
def format (fmt : String) (args : List Int) : String :=
  String.mk (formatChars fmt.toList args)

/-! ## The trace of external calls -/

/-- The two callbacks `main` hands to the library. -/
inductive Callback where
  | esp_callback_func
  | esp_server_callback_func
  deriving DecidableEq, Repr

/-- One call from `main.c` to a function defined outside it, with the
values of its arguments. -/
inductive Call (Evt Conn Pbuf : Type) where
  | printf (fmt : String) (args : List Int)
  | esp_init (cb : Callback) (blocking : Nat)
  | connect_to_preferred_access_point (unlimited : Nat)
  | esp_set_server (listen_id port max_connections backlog : Nat) (cb : Callback)
      (blocking : Nat)
  | esp_delay (ms : Nat)
  | esp_evt_get_type (evt : Evt)
  | esp_conn_get_from_evt (evt : Evt)
  | esp_evt_conn_data_recv_get_buff (evt : Evt)
  | esp_conn_getnum (conn : Conn)
  | esp_pbuf_length (p : Pbuf) (tot : Nat)
  | esp_conn_close (conn : Conn) (blocking : Nat)
  | esp_get_min_at_fw_version
  | esp_get_current_at_fw_version
  deriving DecidableEq, Repr

namespace Call

variable {Evt Conn Pbuf : Type}

/-- A report: text written to the output log. -/
def isReport : Call Evt Conn Pbuf → Bool
  | printf _ _ => true
  | _ => false

/-- A close of a connection. -/
def isClose : Call Evt Conn Pbuf → Bool
  | esp_conn_close _ _ => true
  | _ => false

/-- A call that changes something outside the callback: a report or a close. -/
def isEffect (c : Call Evt Conn Pbuf) : Bool :=
  c.isReport || c.isClose

/-- A query of the length of a buffer. -/
def isLengthQuery : Call Evt Conn Pbuf → Bool
  | esp_pbuf_length _ _ => true
  | _ => false

/-- A buffer operation: retrieval of the received buffer or a length query. -/
def isBufferOp : Call Evt Conn Pbuf → Bool
  | esp_evt_conn_data_recv_get_buff _ => true
  | esp_pbuf_length _ _ => true
  | _ => false

/-- A query of a firmware version. -/
def isVersionQuery : Call Evt Conn Pbuf → Bool
  | esp_get_min_at_fw_version => true
  | esp_get_current_at_fw_version => true
  | _ => false

/-- An operation on a connection or on its received data. -/
def isConnOp : Call Evt Conn Pbuf → Bool
  | esp_conn_get_from_evt _ => true
  | esp_conn_getnum _ => true
  | esp_conn_close _ _ => true
  | esp_evt_conn_data_recv_get_buff _ => true
  | esp_pbuf_length _ _ => true
  | _ => false

/-- A set-up call of `main`. -/
def isSetup : Call Evt Conn Pbuf → Bool
  | esp_init _ _ => true
  | connect_to_preferred_access_point _ => true
  | esp_set_server _ _ _ _ _ _ => true
  | _ => false

/-- A call that waits: a library call whose blocking argument is non-zero,
or a delay. -/
def isBlocking : Call Evt Conn Pbuf → Bool
  | esp_init _ b => b != 0
  | connect_to_preferred_access_point _ => true
  | esp_set_server _ _ _ _ _ b => b != 0
  | esp_conn_close _ b => b != 0
  | esp_delay _ => true
  | _ => false

end Call

/-! ## The program -/

section Program

variable {Evt Conn Pbuf : Type}

/-- A C `switch` all of whose cases end in `break`: the body of the first
case whose label equals the scrutinee runs, the default body if there is none. -/
def switch {α β : Type} [DecidableEq α] (x : α) (cases : List (α × β)) (dflt : β) : β :=
  match cases with
  | [] => dflt
  | (label, body) :: rest => if x = label then body else switch x rest dflt

/-- The calls of `main` (lines 45-76) up to `n` rounds of its endless loop.
`ESP_CFG_MAX_CONNS` is a configuration constant of the missing headers. -/
def main (ESP_CFG_MAX_CONNS : Nat) (n : Nat) : List (Call Evt Conn Pbuf) :=
  [ .printf "Starting ESP application!\r\n" [],
    .esp_init .esp_callback_func 1,
    .connect_to_preferred_access_point 1,
    .esp_set_server 1 80 ESP_CFG_MAX_CONNS 0 .esp_server_callback_func 1 ]
  ++ List.replicate n (.esp_delay 1000)

/-- Callback for server connection events (lines 83-109): the status it
returns and the calls it makes, in order.  The two arguments of the `printf`
of the data-received case are evaluated left to right. -/
def esp_server_callback_func (eng : Engine Evt Conn Pbuf) (evt : Evt) :
    espr_t × List (Call Evt Conn Pbuf) :=
  let conn := eng.esp_conn_get_from_evt evt
  let t0 : List (Call Evt Conn Pbuf) := [.esp_conn_get_from_evt evt, .esp_evt_get_type evt]
  let body := switch (eng.esp_evt_get_type evt)
    [ (.ESP_EVT_CONN_ACTIVE,
        [ .esp_conn_getnum conn,
          .printf "Connection %d active as server!\r\n" [castInt (eng.esp_conn_getnum conn)] ]),
      (.ESP_EVT_CONN_DATA_RECV,
        let p := eng.esp_evt_conn_data_recv_get_buff evt
        let t1 : List (Call Evt Conn Pbuf) := [.esp_evt_conn_data_recv_get_buff evt]
        let t2 : List (Call Evt Conn Pbuf) :=
          match p with
          | some b =>
            [ .esp_conn_getnum conn,
              .esp_pbuf_length b 1,
              .printf "Server connection %d data received with %d bytes\r\n"
                [castInt (eng.esp_conn_getnum conn), castInt (eng.esp_pbuf_length b 1)] ]
          | none => []
        let _res := eng.esp_conn_close conn 0
        t1 ++ t2 ++ [.esp_conn_close conn 0]),
      (.ESP_EVT_CONN_CLOSED,
        [ .esp_conn_getnum conn,
          .printf "Server connection %d closed!\r\n" [castInt (eng.esp_conn_getnum conn)] ]) ]
    []
  (.espOK, t0 ++ body)

/-- The body of the `ESP_EVT_AT_VERSION_NOT_SUPPORTED` case (lines 120-128,
and again lines 131-139). -/
def at_version_not_supported_body (eng : Engine Evt Conn Pbuf) : List (Call Evt Conn Pbuf) :=
  let v_min := eng.esp_get_min_at_fw_version
  let v_curr := eng.esp_get_current_at_fw_version
  [ .esp_get_min_at_fw_version,
    .esp_get_current_at_fw_version,
    .printf "Current ESP8266 AT version is not supported by library!\r\n" [],
    .printf "Minimum required AT version is: %d.%d.%d\r\n"
      [castInt v_min.major, castInt v_min.minor, castInt v_min.patch],
    .printf "Current AT version is: %d.%d.%d\r\n"
      [castInt v_curr.major, castInt v_curr.minor, castInt v_curr.patch] ]

/-- Event callback for the ESP stack (lines 116-152), with both
`ESP_EVT_AT_VERSION_NOT_SUPPORTED` cases of the source, in source order. -/
def esp_callback_func (eng : Engine Evt Conn Pbuf) (evt : Evt) :
    espr_t × List (Call Evt Conn Pbuf) :=
  let t0 : List (Call Evt Conn Pbuf) := [.esp_evt_get_type evt]
  let body := switch (eng.esp_evt_get_type evt)
    [ (.ESP_EVT_AT_VERSION_NOT_SUPPORTED, at_version_not_supported_body eng),
      (.ESP_EVT_AT_VERSION_NOT_SUPPORTED, at_version_not_supported_body eng),
      (.ESP_EVT_INIT_FINISH, [.printf "Library initialized!\r\n" []]),
      (.ESP_EVT_RESET, [.printf "Device reset detected!\r\n" []]) ]
    []
  (.espOK, t0 ++ body)

/-- The lifecycle router as the spec asks for it: "implement the case once".
It is `esp_callback_func` without the second
`ESP_EVT_AT_VERSION_NOT_SUPPORTED` case. -/
def esp_callback_func_case_once (eng : Engine Evt Conn Pbuf) (evt : Evt) :
    espr_t × List (Call Evt Conn Pbuf) :=
  let t0 : List (Call Evt Conn Pbuf) := [.esp_evt_get_type evt]
  let body := switch (eng.esp_evt_get_type evt)
    [ (.ESP_EVT_AT_VERSION_NOT_SUPPORTED, at_version_not_supported_body eng),
      (.ESP_EVT_INIT_FINISH, [.printf "Library initialized!\r\n" []]),
      (.ESP_EVT_RESET, [.printf "Device reset detected!\r\n" []]) ]
    []
  (.espOK, t0 ++ body)

end Program

/-! ## The external state -/

/-- Modelled from the spec: the external state the callbacks act on, "output
log, set of open connections".  The library that owns the connections is
missing. -/
structure World (Conn : Type) where
  out : List String
  conns : List Conn
  deriving DecidableEq, Repr

section Exec

variable {Evt Conn Pbuf : Type} [DecidableEq Conn]

/-- Modelled from the spec: what one call does to the external state.
`printf` appends its text to the output log; `esp_conn_close` removes the
connection from the open ones ("destroyed when the engine or the application
closes it"); the accessors and queries change nothing.  The library is
missing. -/
def World.step (w : World Conn) : Call Evt Conn Pbuf → World Conn
  | .printf fmt args => { w with out := w.out ++ [format fmt args] }
  | .esp_conn_close conn _ => { w with conns := w.conns.filter (fun c => c ≠ conn) }
  | _ => w

/-- The external state after a sequence of calls. -/
def World.exec (w : World Conn) (t : List (Call Evt Conn Pbuf)) : World Conn :=
  t.foldl World.step w

/-- Delivery of one event to the connection router. -/
def deliver_server (eng : Engine Evt Conn Pbuf) (evt : Evt) (w : World Conn) : World Conn :=
  w.exec (esp_server_callback_func eng evt).2

/-- Delivery of one event to the lifecycle router. -/
def deliver_lifecycle (eng : Engine Evt Conn Pbuf) (evt : Evt) (w : World Conn) : World Conn :=
  w.exec (esp_callback_func eng evt).2

end Exec

/-! ## A concrete engine -/

/-- Modelled from the spec: a connection, "an opaque handle identifying one
accepted network session" with "a numeric identifier". -/
structure Connection where
  num : Int
  deriving DecidableEq, Repr

/-- Modelled from the spec: a buffer, "an immutable byte sequence of known
length". -/
abbrev Buffer := List (Fin 256)

/-- Modelled from the spec: an event, "a tagged value carrying a discriminant
plus event-specific payload (a buffer reference for data-received)". -/
structure Event where
  type : esp_evt_type_t
  conn : Connection
  buff : Option Buffer
  deriving DecidableEq, Repr

/-- Modelled from the spec: the accessors of the missing library over
`Event`, `Connection` and `Buffer`.  `buffer_length` is the "byte_count" of
the buffer; the two firmware versions and the status of a close are given. -/
def specEngine (v_min v_curr : esp_sw_version_t) (close_res : espr_t) :
    Engine Event Connection Buffer where
  esp_evt_get_type := fun e => e.type
  esp_conn_get_from_evt := fun e => e.conn
  esp_evt_conn_data_recv_get_buff := fun e => e.buff
  esp_conn_getnum := fun c => c.num
  esp_pbuf_length := fun b _ => b.length
  esp_conn_close := fun _ _ => close_res
  esp_get_min_at_fw_version := v_min
  esp_get_current_at_fw_version := v_curr

/-- The bytes of the text "PING". -/
def PING : Buffer := [80, 73, 78, 71]

/-- The engine of the scenarios: minimum version 1.2.0, current version
1.1.5, every close succeeds. -/
def scenarioEngine : Engine Event Connection Buffer :=
  specEngine ⟨1, 2, 0⟩ ⟨1, 1, 5⟩ .espOK

/-- The event of the data scenario: data received on connection number 3
with the buffer "PING". -/
def pingEvent : Event := ⟨.ESP_EVT_CONN_DATA_RECV, ⟨3⟩, some PING⟩

/-- An event of type `t` on connection number `n`, with no buffer. -/
def plainEvent (t : esp_evt_type_t) (n : Int) : Event := ⟨t, ⟨n⟩, none⟩

/-- A world with nothing printed yet and connections 3 and 5 open. -/
def world0 : World Connection := ⟨[], [⟨3⟩, ⟨5⟩]⟩



section Lemmas

variable {Evt Conn Pbuf : Type}

/-- The conversion to `int` keeps every value an `int` can hold. -/
theorem castInt_of_range (x : Int) (hlo : -2 ^ 31 ≤ x) (hhi : x < 2 ^ 31) : castInt x = x := by
  unfold castInt INT_BITS
  norm_num
  omega

/-- In a `switch`, a second case with a label already seen never runs,
whatever its body is. -/
theorem switch_duplicate_case {α β : Type} [DecidableEq α] (x l : α) (b b2 : β)
    (rest : List (α × β)) (d : β) :
    switch x ((l, b) :: (l, b2) :: rest) d = switch x ((l, b) :: rest) d := by
  simp only [switch]
  split <;> rfl

end Lemmas

/-! ## The connection router -/

section Server

variable {Evt Conn Pbuf : Type}

/-- C1: a data-received event with a buffer present makes the router emit
one report with the connection number and with the byte count
`esp_pbuf_length(p, 1)` of that buffer (both converted to `int` as in the
source), and then close that connection once, after the report: the output
log grows by that one line and the connection leaves the open ones. -/
theorem data_recv_with_buffer_reports_then_closes [DecidableEq Conn]
    (eng : Engine Evt Conn Pbuf) (evt : Evt) (w : World Conn) (b : Pbuf)
    (ht : eng.esp_evt_get_type evt = .ESP_EVT_CONN_DATA_RECV)
    (hb : eng.esp_evt_conn_data_recv_get_buff evt = some b) :
    (esp_server_callback_func eng evt).2.filter Call.isEffect =
        [ .printf "Server connection %d data received with %d bytes\r\n"
            [ castInt (eng.esp_conn_getnum (eng.esp_conn_get_from_evt evt)),
              castInt (eng.esp_pbuf_length b 1) ],
          .esp_conn_close (eng.esp_conn_get_from_evt evt) 0 ]
      ∧ (esp_server_callback_func eng evt).2.filter Call.isLengthQuery =
          [.esp_pbuf_length b 1]
      ∧ deliver_server eng evt w =
          { out := w.out ++
              [ format "Server connection %d data received with %d bytes\r\n"
                  [ castInt (eng.esp_conn_getnum (eng.esp_conn_get_from_evt evt)),
                    castInt (eng.esp_pbuf_length b 1) ] ],
            conns := w.conns.filter (fun c => c ≠ eng.esp_conn_get_from_evt evt) } := by
  refine ⟨?_, ?_, ?_⟩ <;>
    simp [deliver_server, World.exec, World.step, esp_server_callback_func, switch, ht, hb,
      Call.isEffect, Call.isReport, Call.isClose, Call.isLengthQuery]

/-- C2: a data-received event without a buffer makes the router close the
connection once, with no report and no buffer-length query. -/
theorem data_recv_without_buffer_only_closes (eng : Engine Evt Conn Pbuf) (evt : Evt)
    (ht : eng.esp_evt_get_type evt = .ESP_EVT_CONN_DATA_RECV)
    (hb : eng.esp_evt_conn_data_recv_get_buff evt = none) :
    (esp_server_callback_func eng evt).2.filter Call.isEffect =
        [.esp_conn_close (eng.esp_conn_get_from_evt evt) 0]
      ∧ (esp_server_callback_func eng evt).2.filter Call.isReport = []
      ∧ (esp_server_callback_func eng evt).2.filter Call.isLengthQuery = [] := by
  simp [esp_server_callback_func, switch, ht, hb, Call.isEffect, Call.isReport, Call.isClose,
    Call.isLengthQuery]

/-- C3 (as amended): for a data-received event on connection number 3 whose
buffer is the four bytes "PING", with a library whose length query returns
the number of bytes of that buffer, the router reports connection 3 and
"4 bytes", and then closes connection 3 with second argument 0. -/
theorem scenario_ping_reports_4_bytes [DecidableEq Conn] (eng : Engine Evt Conn Buffer)
    (evt : Evt) (w : World Conn)
    (ht : eng.esp_evt_get_type evt = .ESP_EVT_CONN_DATA_RECV)
    (hb : eng.esp_evt_conn_data_recv_get_buff evt = some PING)
    (hn : eng.esp_conn_getnum (eng.esp_conn_get_from_evt evt) = 3)
    (hl : eng.esp_pbuf_length PING 1 = PING.length) :
    (esp_server_callback_func eng evt).2.filter Call.isEffect =
        [ .printf "Server connection %d data received with %d bytes\r\n" [3, 4],
          .esp_conn_close (eng.esp_conn_get_from_evt evt) 0 ]
      ∧ (deliver_server eng evt w).out =
          w.out ++ ["Server connection 3 data received with 4 bytes\r\n"] := by
  have h3 : castInt 3 = 3 := by decide
  have h4 : castInt 4 = 4 := by decide
  have hf : format "Server connection %d data received with %d bytes\r\n" [3, 4] =
      "Server connection 3 data received with 4 bytes\r\n" := by decide
  have hlen : PING.length = 4 := by decide
  constructor
  · simp [esp_server_callback_func, switch, ht, hb, hn, hl, hlen, h3, h4, Call.isEffect,
      Call.isReport, Call.isClose]
  · simp [deliver_server, World.exec, World.step, esp_server_callback_func, switch, ht, hb, hn,
      hl, hlen, h3, h4, hf]

/-- C4: a connection-closed event makes the router do nothing but report:
after reading the connection and the type of the event it reads the
connection number and emits the one report with it, and these four calls
are all it makes.  So there is no close, no buffer retrieval and no
buffer-length query; a second delivery of the event makes the same calls,
adds the same report again and leaves the open connections as they were. -/
theorem conn_closed_only_reports [DecidableEq Conn] (eng : Engine Evt Conn Pbuf) (evt : Evt)
    (w : World Conn)
    (ht : eng.esp_evt_get_type evt = .ESP_EVT_CONN_CLOSED) :
    (esp_server_callback_func eng evt).2 =
        [ .esp_conn_get_from_evt evt,
          .esp_evt_get_type evt,
          .esp_conn_getnum (eng.esp_conn_get_from_evt evt),
          .printf "Server connection %d closed!\r\n"
            [castInt (eng.esp_conn_getnum (eng.esp_conn_get_from_evt evt))] ]
      ∧ (esp_server_callback_func eng evt).2.filter Call.isEffect =
          [ .printf "Server connection %d closed!\r\n"
              [castInt (eng.esp_conn_getnum (eng.esp_conn_get_from_evt evt))] ]
      ∧ (esp_server_callback_func eng evt).2.filter Call.isClose = []
      ∧ (esp_server_callback_func eng evt).2.filter Call.isBufferOp = []
      ∧ deliver_server eng evt w =
          { out := w.out ++
              [ format "Server connection %d closed!\r\n"
                  [castInt (eng.esp_conn_getnum (eng.esp_conn_get_from_evt evt))] ],
            conns := w.conns }
      ∧ deliver_server eng evt (deliver_server eng evt w) =
          { out := w.out ++
              [ format "Server connection %d closed!\r\n"
                  [castInt (eng.esp_conn_getnum (eng.esp_conn_get_from_evt evt))],
                format "Server connection %d closed!\r\n"
                  [castInt (eng.esp_conn_getnum (eng.esp_conn_get_from_evt evt))] ],
            conns := w.conns } := by
  refine ⟨?_, ?_, ?_, ?_, ?_, ?_⟩ <;>
    simp [deliver_server, World.exec, World.step, esp_server_callback_func, switch, ht,
      Call.isEffect, Call.isReport, Call.isClose, Call.isBufferOp]

/-- C7: a connection-active event makes the router emit one report, that the
connection with the number of the event is active as server, with no buffer
retrieval, no buffer-length query and no close. -/
theorem conn_active_only_reports (eng : Engine Evt Conn Pbuf) (evt : Evt)
    (ht : eng.esp_evt_get_type evt = .ESP_EVT_CONN_ACTIVE) :
    (esp_server_callback_func eng evt).2.filter Call.isReport =
        [ .printf "Connection %d active as server!\r\n"
            [castInt (eng.esp_conn_getnum (eng.esp_conn_get_from_evt evt))] ]
      ∧ (esp_server_callback_func eng evt).2.filter Call.isBufferOp = []
      ∧ (esp_server_callback_func eng evt).2.filter Call.isClose = [] := by
  refine ⟨?_, ?_, ?_⟩ <;>
    simp [esp_server_callback_func, switch, ht, Call.isReport, Call.isClose, Call.isBufferOp]

end Server

/-! ## The lifecycle router -/

section Lifecycle

variable {Evt Conn Pbuf : Type}

/-- C6: an unsupported-firmware-version event makes the lifecycle router
query the minimum and the current firmware version once each and report
both triples, the minimum one in one line and the current one in the next;
it makes no connection operation and no blocking call. -/
theorem version_not_supported_reports_both (eng : Engine Evt Conn Pbuf) (evt : Evt)
    (ht : eng.esp_evt_get_type evt = .ESP_EVT_AT_VERSION_NOT_SUPPORTED) :
    (esp_callback_func eng evt).2 =
        [ .esp_evt_get_type evt,
          .esp_get_min_at_fw_version,
          .esp_get_current_at_fw_version,
          .printf "Current ESP8266 AT version is not supported by library!\r\n" [],
          .printf "Minimum required AT version is: %d.%d.%d\r\n"
            [ castInt eng.esp_get_min_at_fw_version.major,
              castInt eng.esp_get_min_at_fw_version.minor,
              castInt eng.esp_get_min_at_fw_version.patch ],
          .printf "Current AT version is: %d.%d.%d\r\n"
            [ castInt eng.esp_get_current_at_fw_version.major,
              castInt eng.esp_get_current_at_fw_version.minor,
              castInt eng.esp_get_current_at_fw_version.patch ] ]
      ∧ (esp_callback_func eng evt).2.filter Call.isVersionQuery =
          [.esp_get_min_at_fw_version, .esp_get_current_at_fw_version]
      ∧ (esp_callback_func eng evt).2.filter Call.isConnOp = []
      ∧ (esp_callback_func eng evt).2.filter Call.isBlocking = [] := by
  refine ⟨?_, ?_, ?_, ?_⟩ <;>
    simp [esp_callback_func, at_version_not_supported_body, switch, ht, Call.isVersionQuery,
      Call.isConnOp, Call.isBlocking]

/-- C9: the second unsupported-firmware-version case is dead: the router as
written behaves, for every event, like the router with the case written
once, and an unsupported-firmware-version event queries each version and
reports each triple once. -/
theorem duplicate_version_case_is_dead (eng : Engine Evt Conn Pbuf) (evt : Evt) :
    esp_callback_func eng evt = esp_callback_func_case_once eng evt
      ∧ (eng.esp_evt_get_type evt = .ESP_EVT_AT_VERSION_NOT_SUPPORTED →
          (esp_callback_func eng evt).2.filter Call.isVersionQuery =
              [.esp_get_min_at_fw_version, .esp_get_current_at_fw_version]
            ∧ ((esp_callback_func eng evt).2.filter Call.isReport).length = 3) := by
  constructor
  · simp only [esp_callback_func, esp_callback_func_case_once, switch_duplicate_case]
  · intro ht
    constructor <;>
      simp [esp_callback_func, at_version_not_supported_body, switch, ht, Call.isVersionQuery,
        Call.isReport]

/-- C10: an init-finished event makes the lifecycle router emit the one
report that the library is initialized, a reset event the one report that a
device reset was detected; in both cases it makes no other call than the
read of the event type: no version query, no set-up call and no connection
operation. -/
theorem init_finish_and_reset_only_report (eng : Engine Evt Conn Pbuf) (evt : Evt) :
    (eng.esp_evt_get_type evt = .ESP_EVT_INIT_FINISH →
        (esp_callback_func eng evt).2 =
          [.esp_evt_get_type evt, .printf "Library initialized!\r\n" []])
      ∧ (eng.esp_evt_get_type evt = .ESP_EVT_RESET →
          (esp_callback_func eng evt).2 =
            [.esp_evt_get_type evt, .printf "Device reset detected!\r\n" []])
      ∧ (eng.esp_evt_get_type evt = .ESP_EVT_INIT_FINISH ∨
            eng.esp_evt_get_type evt = .ESP_EVT_RESET →
          ((esp_callback_func eng evt).2.filter Call.isReport).length = 1
            ∧ (esp_callback_func eng evt).2.filter Call.isVersionQuery = []
            ∧ (esp_callback_func eng evt).2.filter Call.isSetup = []
            ∧ (esp_callback_func eng evt).2.filter Call.isConnOp = []) := by
  refine ⟨?_, ?_, ?_⟩
  · intro ht
    simp [esp_callback_func, switch, ht]
  · intro ht
    simp [esp_callback_func, switch, ht]
  · rintro (ht | ht) <;>
      simp [esp_callback_func, switch, ht, Call.isReport, Call.isVersionQuery, Call.isSetup,
        Call.isConnOp]

end Lifecycle

/-! ## Both routers -/

section Both

variable {Evt Conn Pbuf : Type}

/-- C5: an event whose type no case matches is a no-op for either router:
the connection router only reads the connection and the type of the event,
the lifecycle router only the type; neither reports, closes, touches a
buffer or queries a version, and the output log and the open connections
are what they were. -/
theorem unmatched_type_is_noop [DecidableEq Conn] (eng : Engine Evt Conn Pbuf) (evt : Evt)
    (w : World Conn) :
    (eng.esp_evt_get_type evt ≠ .ESP_EVT_CONN_ACTIVE →
      eng.esp_evt_get_type evt ≠ .ESP_EVT_CONN_DATA_RECV →
      eng.esp_evt_get_type evt ≠ .ESP_EVT_CONN_CLOSED →
        (esp_server_callback_func eng evt).2 =
            [.esp_conn_get_from_evt evt, .esp_evt_get_type evt]
          ∧ (esp_server_callback_func eng evt).2.filter Call.isReport = []
          ∧ (esp_server_callback_func eng evt).2.filter Call.isClose = []
          ∧ (esp_server_callback_func eng evt).2.filter Call.isBufferOp = []
          ∧ deliver_server eng evt w = w)
      ∧ (eng.esp_evt_get_type evt ≠ .ESP_EVT_AT_VERSION_NOT_SUPPORTED →
        eng.esp_evt_get_type evt ≠ .ESP_EVT_INIT_FINISH →
        eng.esp_evt_get_type evt ≠ .ESP_EVT_RESET →
          (esp_callback_func eng evt).2 = [.esp_evt_get_type evt]
            ∧ (esp_callback_func eng evt).2.filter Call.isReport = []
            ∧ (esp_callback_func eng evt).2.filter Call.isVersionQuery = []
            ∧ deliver_lifecycle eng evt w = w) := by
  constructor
  · intro h1 h2 h3
    refine ⟨?_, ?_, ?_, ?_, ?_⟩ <;>
      simp [deliver_server, World.exec, World.step, esp_server_callback_func, switch, h1, h2, h3,
        Call.isReport, Call.isClose, Call.isBufferOp]
  · intro h1 h2 h3
    refine ⟨?_, ?_, ?_, ?_⟩ <;>
      simp [deliver_lifecycle, World.exec, World.step, esp_callback_func, switch, h1, h2, h3,
        Call.isReport, Call.isVersionQuery]

/-- C8: both routers return `espOK` for every event, whatever the library
answers: whatever the type of the event, whether or not a buffer is present,
and whatever status the close returns. -/
theorem routers_return_espOK (eng : Engine Evt Conn Pbuf) (evt : Evt) :
    (esp_server_callback_func eng evt).1 = .espOK ∧ (esp_callback_func eng evt).1 = .espOK :=
  ⟨rfl, rfl⟩

end Both

/-! ## The claims at concrete events -/

section Concrete

/-- C1 at a data-received event on connection 5 with a buffer of two bytes. -/
theorem data_recv_with_buffer_reports_then_closes_witness :
    scenarioEngine.esp_evt_get_type ⟨.ESP_EVT_CONN_DATA_RECV, ⟨5⟩, some [1, 2]⟩ =
        .ESP_EVT_CONN_DATA_RECV
      ∧ scenarioEngine.esp_evt_conn_data_recv_get_buff
          ⟨.ESP_EVT_CONN_DATA_RECV, ⟨5⟩, some [1, 2]⟩ = some [1, 2]
      ∧ (esp_server_callback_func scenarioEngine
            ⟨.ESP_EVT_CONN_DATA_RECV, ⟨5⟩, some [1, 2]⟩).2.filter Call.isEffect =
          [ .printf "Server connection %d data received with %d bytes\r\n" [5, 2],
            .esp_conn_close ⟨5⟩ 0 ]
      ∧ deliver_server scenarioEngine ⟨.ESP_EVT_CONN_DATA_RECV, ⟨5⟩, some [1, 2]⟩ world0 =
          ⟨["Server connection 5 data received with 2 bytes\r\n"], [⟨3⟩]⟩ :=
  ⟨rfl, rfl,
    (data_recv_with_buffer_reports_then_closes scenarioEngine
      ⟨.ESP_EVT_CONN_DATA_RECV, ⟨5⟩, some [1, 2]⟩ world0 [1, 2] rfl rfl).1,
    (data_recv_with_buffer_reports_then_closes scenarioEngine
      ⟨.ESP_EVT_CONN_DATA_RECV, ⟨5⟩, some [1, 2]⟩ world0 [1, 2] rfl rfl).2.2⟩

/-- C2 at a data-received event on connection 7 without a buffer. -/
theorem data_recv_without_buffer_only_closes_witness :
    scenarioEngine.esp_evt_get_type (plainEvent .ESP_EVT_CONN_DATA_RECV 7) =
        .ESP_EVT_CONN_DATA_RECV
      ∧ scenarioEngine.esp_evt_conn_data_recv_get_buff
          (plainEvent .ESP_EVT_CONN_DATA_RECV 7) = none
      ∧ (esp_server_callback_func scenarioEngine
            (plainEvent .ESP_EVT_CONN_DATA_RECV 7)).2.filter Call.isEffect =
          [.esp_conn_close ⟨7⟩ 0]
      ∧ (esp_server_callback_func scenarioEngine
            (plainEvent .ESP_EVT_CONN_DATA_RECV 7)).2.filter Call.isReport = []
      ∧ (esp_server_callback_func scenarioEngine
            (plainEvent .ESP_EVT_CONN_DATA_RECV 7)).2.filter Call.isLengthQuery = [] :=
  ⟨rfl, rfl, data_recv_without_buffer_only_closes scenarioEngine
    (plainEvent .ESP_EVT_CONN_DATA_RECV 7) rfl rfl⟩

/-- C3 as stated fails: at the event of the scenario (data received,
connection 3, buffer "PING") the byte count of the report is not 3, and the
text written does not contain "3 bytes". -/
theorem scenario_ping_does_not_report_3_bytes :
    (esp_server_callback_func scenarioEngine pingEvent).2.filter Call.isReport ≠
        [.printf "Server connection %d data received with %d bytes\r\n" [3, 3]]
      ∧ ¬ ∃ line ∈ (deliver_server scenarioEngine pingEvent world0).out,
          "3 bytes".toList <:+: line.toList := by
  decide

/-- C3 (as amended) at the event of the scenario. -/
theorem scenario_ping_reports_4_bytes_witness :
    scenarioEngine.esp_evt_get_type pingEvent = .ESP_EVT_CONN_DATA_RECV
      ∧ scenarioEngine.esp_evt_conn_data_recv_get_buff pingEvent = some PING
      ∧ scenarioEngine.esp_conn_getnum (scenarioEngine.esp_conn_get_from_evt pingEvent) = 3
      ∧ scenarioEngine.esp_pbuf_length PING 1 = PING.length
      ∧ (esp_server_callback_func scenarioEngine pingEvent).2.filter Call.isEffect =
          [ .printf "Server connection %d data received with %d bytes\r\n" [3, 4],
            .esp_conn_close ⟨3⟩ 0 ]
      ∧ (deliver_server scenarioEngine pingEvent world0).out =
          ["Server connection 3 data received with 4 bytes\r\n"] :=
  ⟨rfl, rfl, rfl, rfl, scenario_ping_reports_4_bytes scenarioEngine pingEvent world0 rfl rfl rfl rfl⟩

/-- C4 at a connection-closed event on connection 3, delivered once and twice. -/
theorem conn_closed_only_reports_witness :
    scenarioEngine.esp_evt_get_type (plainEvent .ESP_EVT_CONN_CLOSED 3) = .ESP_EVT_CONN_CLOSED
      ∧ (esp_server_callback_func scenarioEngine (plainEvent .ESP_EVT_CONN_CLOSED 3)).2 =
          [ .esp_conn_get_from_evt (plainEvent .ESP_EVT_CONN_CLOSED 3),
            .esp_evt_get_type (plainEvent .ESP_EVT_CONN_CLOSED 3),
            .esp_conn_getnum ⟨3⟩,
            .printf "Server connection %d closed!\r\n" [3] ]
      ∧ deliver_server scenarioEngine (plainEvent .ESP_EVT_CONN_CLOSED 3) world0 =
          ⟨["Server connection 3 closed!\r\n"], [⟨3⟩, ⟨5⟩]⟩
      ∧ deliver_server scenarioEngine (plainEvent .ESP_EVT_CONN_CLOSED 3)
            (deliver_server scenarioEngine (plainEvent .ESP_EVT_CONN_CLOSED 3) world0) =
          ⟨["Server connection 3 closed!\r\n", "Server connection 3 closed!\r\n"],
            [⟨3⟩, ⟨5⟩]⟩ :=
  ⟨rfl,
    (conn_closed_only_reports scenarioEngine (plainEvent .ESP_EVT_CONN_CLOSED 3) world0 rfl).1,
    (conn_closed_only_reports scenarioEngine (plainEvent .ESP_EVT_CONN_CLOSED 3) world0
      rfl).2.2.2.2.1,
    (conn_closed_only_reports scenarioEngine (plainEvent .ESP_EVT_CONN_CLOSED 3) world0
      rfl).2.2.2.2.2⟩

/-- C5 at an event of a type neither router has a case for. -/
theorem unmatched_type_is_noop_witness :
    deliver_server scenarioEngine (plainEvent (.ESP_EVT_OTHER 42) 3) world0 = world0
      ∧ deliver_lifecycle scenarioEngine (plainEvent (.ESP_EVT_OTHER 42) 3) world0 = world0
      ∧ deliver_server scenarioEngine (plainEvent .ESP_EVT_RESET 3) world0 = world0
      ∧ deliver_lifecycle scenarioEngine (plainEvent .ESP_EVT_CONN_CLOSED 3) world0 = world0 :=
  ⟨((unmatched_type_is_noop scenarioEngine (plainEvent (.ESP_EVT_OTHER 42) 3) world0).1
      (by decide) (by decide) (by decide)).2.2.2.2,
    ((unmatched_type_is_noop scenarioEngine (plainEvent (.ESP_EVT_OTHER 42) 3) world0).2
      (by decide) (by decide) (by decide)).2.2.2,
    ((unmatched_type_is_noop scenarioEngine (plainEvent .ESP_EVT_RESET 3) world0).1
      (by decide) (by decide) (by decide)).2.2.2.2,
    ((unmatched_type_is_noop scenarioEngine (plainEvent .ESP_EVT_CONN_CLOSED 3) world0).2
      (by decide) (by decide) (by decide)).2.2.2⟩

/-- C6 at the versions of the scenario: minimum 1.2.0 and current 1.1.5 are
written as "1.2.0" and "1.1.5". -/
theorem version_not_supported_reports_both_witness :
    scenarioEngine.esp_evt_get_type (plainEvent .ESP_EVT_AT_VERSION_NOT_SUPPORTED 0) =
        .ESP_EVT_AT_VERSION_NOT_SUPPORTED
      ∧ (esp_callback_func scenarioEngine
            (plainEvent .ESP_EVT_AT_VERSION_NOT_SUPPORTED 0)).2 =
          [ .esp_evt_get_type (plainEvent .ESP_EVT_AT_VERSION_NOT_SUPPORTED 0),
            .esp_get_min_at_fw_version,
            .esp_get_current_at_fw_version,
            .printf "Current ESP8266 AT version is not supported by library!\r\n" [],
            .printf "Minimum required AT version is: %d.%d.%d\r\n" [1, 2, 0],
            .printf "Current AT version is: %d.%d.%d\r\n" [1, 1, 5] ]
      ∧ (deliver_lifecycle scenarioEngine
            (plainEvent .ESP_EVT_AT_VERSION_NOT_SUPPORTED 0) world0).out =
          [ "Current ESP8266 AT version is not supported by library!\r\n",
            "Minimum required AT version is: 1.2.0\r\n",
            "Current AT version is: 1.1.5\r\n" ] :=
  ⟨rfl,
    (version_not_supported_reports_both scenarioEngine
      (plainEvent .ESP_EVT_AT_VERSION_NOT_SUPPORTED 0) rfl).1,
    by decide⟩

/-- C7 at the event of the scenario: connection number 5 becomes active. -/
theorem conn_active_only_reports_witness :
    scenarioEngine.esp_evt_get_type (plainEvent .ESP_EVT_CONN_ACTIVE 5) = .ESP_EVT_CONN_ACTIVE
      ∧ ((esp_server_callback_func scenarioEngine
              (plainEvent .ESP_EVT_CONN_ACTIVE 5)).2.filter Call.isReport =
            [.printf "Connection %d active as server!\r\n" [5]]
          ∧ (esp_server_callback_func scenarioEngine
              (plainEvent .ESP_EVT_CONN_ACTIVE 5)).2.filter Call.isBufferOp = []
          ∧ (esp_server_callback_func scenarioEngine
              (plainEvent .ESP_EVT_CONN_ACTIVE 5)).2.filter Call.isClose = [])
      ∧ deliver_server scenarioEngine (plainEvent .ESP_EVT_CONN_ACTIVE 5) world0 =
          ⟨["Connection 5 active as server!\r\n"], [⟨3⟩, ⟨5⟩]⟩ :=
  ⟨rfl, conn_active_only_reports scenarioEngine (plainEvent .ESP_EVT_CONN_ACTIVE 5) rfl,
    by decide⟩

/-- C9 at an unsupported-firmware-version event: each version is queried
once and there are three reports, not six. -/
theorem duplicate_version_case_is_dead_witness :
    scenarioEngine.esp_evt_get_type (plainEvent .ESP_EVT_AT_VERSION_NOT_SUPPORTED 0) =
        .ESP_EVT_AT_VERSION_NOT_SUPPORTED
      ∧ (esp_callback_func scenarioEngine
            (plainEvent .ESP_EVT_AT_VERSION_NOT_SUPPORTED 0)).2.filter Call.isVersionQuery =
          [.esp_get_min_at_fw_version, .esp_get_current_at_fw_version]
      ∧ ((esp_callback_func scenarioEngine
            (plainEvent .ESP_EVT_AT_VERSION_NOT_SUPPORTED 0)).2.filter Call.isReport).length = 3 :=
  ⟨rfl,
    (duplicate_version_case_is_dead scenarioEngine
      (plainEvent .ESP_EVT_AT_VERSION_NOT_SUPPORTED 0)).2 rfl⟩

/-- C10 at an init-finished event and at a reset event. -/
theorem init_finish_and_reset_only_report_witness :
    scenarioEngine.esp_evt_get_type (plainEvent .ESP_EVT_INIT_FINISH 0) = .ESP_EVT_INIT_FINISH
      ∧ scenarioEngine.esp_evt_get_type (plainEvent .ESP_EVT_RESET 0) = .ESP_EVT_RESET
      ∧ (esp_callback_func scenarioEngine (plainEvent .ESP_EVT_INIT_FINISH 0)).2 =
          [ .esp_evt_get_type (plainEvent .ESP_EVT_INIT_FINISH 0),
            .printf "Library initialized!\r\n" [] ]
      ∧ (esp_callback_func scenarioEngine (plainEvent .ESP_EVT_RESET 0)).2 =
          [ .esp_evt_get_type (plainEvent .ESP_EVT_RESET 0),
            .printf "Device reset detected!\r\n" [] ]
      ∧ (esp_callback_func scenarioEngine (plainEvent .ESP_EVT_RESET 0)).2.filter
          Call.isVersionQuery = [] :=
  ⟨rfl, rfl,
    (init_finish_and_reset_only_report scenarioEngine (plainEvent .ESP_EVT_INIT_FINISH 0)).1 rfl,
    (init_finish_and_reset_only_report scenarioEngine (plainEvent .ESP_EVT_RESET 0)).2.1 rfl,
    ((init_finish_and_reset_only_report scenarioEngine (plainEvent .ESP_EVT_RESET 0)).2.2
      (Or.inr rfl)).2.1⟩

end Concrete

end Lwesp
